import Mathlib

/-!
Verification of the lead contact lifecycle and retry-scheduling engine of the
geniumed repository against its specification.

Shallow embedding conventions:
  - Timestamps are natural numbers counting minutes of local time since an
    arbitrary Sunday 00:00.  With that epoch, the JavaScript accessors become
    Date.getDay() = t / 1440 % 7 (0 = Sunday .. 6 = Saturday),
    Date.getHours() = t % 1440 / 60, and setDate(getDate() + n) = t + n * 1440
    (JavaScript Date rolls day overflow into the next month, which is exactly
    day addition).  Daylight-saving shifts are not modelled.
  - The random draws Math.floor(Math.random() * k) are passed in as explicit
    parameters, bounded by k - 1 in hypotheses.
  - Database rows are lists of records; a supabase select with .eq(...).limit(1)
    is List.find?, an update with .eq(id) maps the mutation over matching rows.
  - Regular-expression tests of the source are finite keyword alternations; a
    test is modelled as "some alternative occurs as a substring".  The source
    lowercases its inputs with String.prototype.toLowerCase; we model case
    folding with String.toLower (faithful on the ASCII range).
-/

/-- Minutes in one day. -/
def minutesPerDay : Nat := 1440

/-- Date.getDay() with the epoch fixed at a Sunday: 0 = Sunday .. 6 = Saturday. -/
def getDay (t : Nat) : Nat := t / 1440 % 7

/-- Date.getHours(). -/
def getHours (t : Nat) : Nat := t % 1440 / 60

/-- Minutes since local midnight. -/
def timeOfDay (t : Nat) : Nat := t % 1440

/-- Local midnight of the day containing t. -/
def startOfDay (t : Nat) : Nat := t / 1440 * 1440

/-- Date.setHours(h, 0, 0, 0). -/
def setHours (t h : Nat) : Nat := startOfDay t + h * 60

/-- Date.setHours(h, m, 0, 0). -/
def setHoursMinutes (t h m : Nat) : Nat := startOfDay t + h * 60 + m

/-- Date.setDate(getDate() + n). -/
def addDays (t n : Nat) : Nat := t + n * 1440

/-- Fuel-bounded helper for the Sunday-skipping loop; seven iterations cover
a full week, and the loop in fact runs at most once because the day after a
Sunday is a Monday. -/
def skipSundaysFuel : Nat → Nat → Nat
  | 0, t => t
  | k + 1, t => if getDay t = 0 then skipSundaysFuel k (t + 1440) else t

/-- The while-loop of routes/retell.js that advances d by one day while
d.getDay() is 0: advance a day at a time until the day is not a Sunday. -/
def skipSundays (t : Nat) : Nat := skipSundaysFuel 7 t

/-- Distance between two instants, |a - b| on Nat. -/
def absDiff (a b : Nat) : Nat := max a b - min a b

/-!
Retry Scheduler (routes/retell.js, current variant).

calculateNextSlot is the business-hours slot algorithm of the
appointment-aware computeNextRetry: candidate = fromTime + 2h; if the
candidate has 8 <= hours < 20 and its day is Monday..Saturday it is returned
unchanged; a Sunday candidate inside that window is moved by
8 - getDay() = 8 days and set to 08:00; a candidate outside the window moves
to the next day when at or past 20:00, then skips Sundays, and is set
to 08:00.
-/

def calculateNextSlot (fromTime : Nat) : Nat :=
  let d := fromTime + 120
  if 8 ≤ getHours d ∧ getHours d < 20 then
    if 1 ≤ getDay d ∧ getDay d ≤ 6 then d
    else setHours (addDays d (8 - getDay d)) 8
  else
    let d2 := if 20 ≤ getHours d then addDays d 1 else d
    setHours (skipSundays d2) 8

/-- computeNextRetry of the appointment-aware webhook variant.  vmDraw models
Math.floor(Math.random() * 11), so 0 <= vmDraw <= 10.  appt is the start time
of the nearest future appointment of the lead, if any.  When the candidate
slot is strictly within 2 hours of the appointment (in either direction), the
slot is pushed one day forward, Sundays skipped, to 08:00. -/
def computeNextRetry (now : Nat) (inVoicemail : Bool) (vmDraw : Nat)
    (appt : Option Nat) : Nat :=
  if inVoicemail then now + (15 + vmDraw)
  else
    let slot := calculateNextSlot now
    match appt with
    | none => slot
    | some t =>
      if absDiff t slot < 120 then setHours (skipSundays (addDays slot 1)) 8
      else slot

/-- computeNextRetry of the day-part webhook variant: voicemail branch is the
same 15..25 minute callback; otherwise the hour is chosen from the day parts
10/15/19 by attempt number, moved to tomorrow when the current hour has
already reached it, with minutes 3 * minDraw, minDraw modelling
Math.floor(Math.random() * 20). -/
def computeNextRetryDaypart (now attemptNo : Nat) (inVoicemail : Bool)
    (vmDraw minDraw : Nat) : Nat :=
  if inVoicemail then now + (15 + vmDraw)
  else
    let nextHour := [10, 15, 19].getD ((attemptNo - 1) % 3) 0
    let d := if nextHour ≤ getHours now then addDays now 1 else now
    setHoursMinutes d nextHour (minDraw * 3)

/-!
Outcome Classifier (routes/retell.js).

The regular expressions of the source are finite alternations of literal
keywords; a test succeeds exactly when one alternative occurs as a substring
of the (lowercased) subject.
-/

/-- ASCII lowercasing, character by character (the semantics of
String.toLower, written over the character list so that it evaluates inside
the kernel). -/
def asciiLower (s : String) : String := String.mk (s.data.map Char.toLower)

def startsWithChars : List Char → List Char → Bool
  | [], _ => true
  | _ :: _, [] => false
  | c :: cs, d :: ds => c == d && startsWithChars cs ds

def occursInChars (pat : List Char) : List Char → Bool
  | [] => pat.isEmpty
  | d :: ds => startsWithChars pat (d :: ds) || occursInChars pat ds

/-- True when pat occurs as a substring of s. -/
def containsSubstr (s pat : String) : Bool := occursInChars pat.data s.data

def matchesAny (s : String) (pats : List String) : Bool :=
  pats.any (fun p => containsSubstr s p)

/-- ASCII apostrophe, kept out of literals. -/
def apostrophe : String := String.singleton (Char.ofNat 39)

/-- Alternatives of the no-human regex
(no ?answer|no[_-]?pickup|didn(apostrophe)?t pick|missed|timeout|busy|failed|
cancelled|declined|unreachable). -/
def noHumanKeywords : List String :=
  ["no answer", "noanswer", "nopickup", "no_pickup", "no-pickup",
   "didnt pick", "didn" ++ apostrophe ++ "t pick",
   "missed", "timeout", "busy", "failed", "cancelled", "declined",
   "unreachable"]

/-- The appointment-aware variant adds voicemail_reached as an alternative. -/
def noHumanKeywordsVR : List String := noHumanKeywords ++ ["voicemail_reached"]

/-- Alternatives of the divergent regex
(divergent|identity[_-]?fail|mismatch name|name mismatch). -/
def divergentKeywords : List String :=
  ["divergent", "identityfail", "identity_fail", "identity-fail",
   "mismatch name", "name mismatch"]

/-- Alternatives of the voicemail transcript regex of the day-part variant
(voicemail|voice[- ]?mail|caixa postal|correio de voz|deixe sua mensagem|
ap[oó]s o sinal|voymail). -/
def voicemailTranscriptKeywords : List String :=
  ["voicemail", "voice-mail", "voice mail", "caixa postal", "correio de voz",
   "deixe sua mensagem", "apos o sinal", "após o sinal", "voymail"]

/-- A call_ended event as read by the webhook: the loosely structured fields
the classifier consumes.  Optional fields model absent JSON members. -/
structure CallEndedEvent where
  evtOutcome : Option String
  disconnectionReason : Option String
  callStatus : Option String
  summaryResult : Option String
  summaryCallOutcome : Option String
  analysisInVoicemail : Bool
  transcript : String
  collected : String
deriving Repr, DecidableEq

/-- outcomeRaw: the truthy text fields (absent and empty strings dropped, as
by Array.prototype.filter(Boolean)) joined with spaces and lowercased. -/
def outcomeRaw (e : CallEndedEvent) : String :=
  asciiLower (String.intercalate " "
    (([e.evtOutcome, e.disconnectionReason, e.callStatus, e.summaryResult,
       e.summaryCallOutcome].filterMap id).filter (fun s => s != "")))

/-- Voicemail detection of the day-part variant: the Retell analysis flag, or
a voicemail phrase in the lowercased transcript, or "not available" in the
stringified collected variables (the second regex alternative
mismatched_reason.*not available is subsumed by the first). -/
def inVoicemailDaypart (e : CallEndedEvent) : Bool :=
  e.analysisInVoicemail
  || matchesAny (asciiLower e.transcript) voicemailTranscriptKeywords
  || containsSubstr (asciiLower e.collected) "not available"

/-- Voicemail detection of the appointment-aware variant: exact disconnect
code voicemail_reached. -/
def inVoicemailVR (e : CallEndedEvent) : Bool :=
  e.disconnectionReason == some "voicemail_reached"

/-- NO_HUMAN of the day-part variant. -/
def noHumanDaypart (e : CallEndedEvent) : Bool :=
  inVoicemailDaypart e || matchesAny (outcomeRaw e) noHumanKeywords

/-- NO_HUMAN of the appointment-aware variant. -/
def noHumanVR (e : CallEndedEvent) : Bool :=
  inVoicemailVR e || matchesAny (outcomeRaw e) noHumanKeywordsVR

/-- DIVERGENT (same regex in both variants). -/
def divergentOutcome (e : CallEndedEvent) : Bool :=
  matchesAny (outcomeRaw e) divergentKeywords

/-!
Data model: the leads and call_attempts tables (db/schema.sql) restricted to
the columns the core reads, plus appointment start times.
-/

structure Lead where
  id : Nat
  status : String
  nextRetryAt : Option Nat
  preferredChannel : String
  maxAttempts : Option Nat
  assignedAgent : Bool
deriving Repr, DecidableEq

structure Attempt where
  id : Nat
  leadId : Nat
  attemptNo : Nat
  retellCallId : String
  startedAt : Option Nat
  endedAt : Option Nat
  outcome : Option String
  transcript : Option String
deriving Repr, DecidableEq

structure Appt where
  leadId : Nat
  startAt : Nat
deriving Repr, DecidableEq

structure Db where
  leads : List Lead
  attempts : List Attempt
  appointments : List Appt
deriving Repr, DecidableEq

/-- select * from call_attempts where retell_call_id = cid limit 1. -/
def findAttemptByCallId (db : Db) (cid : String) : Option Attempt :=
  db.attempts.find? (fun a => a.retellCallId == cid)

/-- select * from leads where id = lid limit 1. -/
def findLead (db : Db) (lid : Nat) : Option Lead :=
  db.leads.find? (fun l => l.id == lid)

/-- update leads set ... where id = lid. -/
def updateLead (db : Db) (lid : Nat) (f : Lead → Lead) : Db :=
  { db with leads := db.leads.map (fun l => if l.id == lid then f l else l) }

/-- update call_attempts set ... where id = aid. -/
def updateAttempt (db : Db) (aid : Nat) (f : Attempt → Attempt) : Db :=
  { db with attempts := db.attempts.map (fun a => if a.id == aid then f a else a) }

def insertAttempt (db : Db) (a : Attempt) : Db :=
  { db with attempts := db.attempts ++ [a] }

/-- Largest attempt_no among the attempts of a lead, 0 when there are none
(the select ... order by attempt_no desc limit 1 of the source). -/
def maxAttemptNoAux (l : List Attempt) (lid : Nat) : Nat :=
  l.foldr (fun a m => if a.leadId == lid then Nat.max a.attemptNo m else m) 0

/-- maxAttemptNo of the webhook: top attempt_no with the JavaScript
fallback (data[0].attempt_no or 1), so an empty result (or a falsy 0) is 1. -/
def maxAttemptNo (db : Db) (lid : Nat) : Nat :=
  let m := maxAttemptNoAux db.attempts lid
  if m = 0 then 1 else m

/-- Nearest future appointment of the lead: select start_at from appointments
where lead_id = lid and start_at >= now order by start_at asc limit 1. -/
def nearestFutureAppt (db : Db) (now lid : Nat) : Option Nat :=
  ((db.appointments.filter (fun p => p.leadId == lid && now ≤ p.startAt)).map
    (fun p => p.startAt)).min?

/-- How a request terminates.  The inline signature guard of routes/retell.js
logs and returns without writing a response, modelled as noResponse; the
verifyRetell middleware responds 401. -/
inductive HttpResponse
  | noResponse
  | ok
  | unauthorized
  | serverError
deriving Repr, DecidableEq

/-- evt.outcome or call.disconnection_reason or (voicemail/ended): first
truthy (present and nonempty) string, else the default. -/
def firstTruthy (opts : List (Option String)) (dflt : String) : String :=
  match (opts.filterMap id).filter (fun s => s != "") with
  | [] => dflt
  | s :: _ => s

def storedOutcomeDaypart (e : CallEndedEvent) : String :=
  firstTruthy [e.evtOutcome, e.disconnectionReason]
    (if inVoicemailDaypart e then "voicemail" else "ended")

def storedOutcomeVR (e : CallEndedEvent) : String :=
  firstTruthy [e.evtOutcome, e.disconnectionReason]
    (if inVoicemailVR e then "voicemail" else "ended")

/-- Stamp ended_at and the raw outcome on an attempt. -/
def stampEnded (db : Db) (aid now : Nat) (oc : String) : Db :=
  updateAttempt db aid (fun a => { a with endedAt := some now, outcome := some oc })

/-- The webhook of the day-part variant of routes/retell.js.  The signature
guard logs and bare-returns on failure.  An unknown call id is acknowledged
untouched.  call_started stamps started_at.  call_ended stamps
ended_at/outcome, loads the lead, and branches on NO_HUMAN: attempts
remaining (next attempt number at most 3) set status no_answer with
next_retry_at from computeNextRetryDaypart, otherwise the lead escalates to
whatsapp_outreach with the preferred channel whatsapp and next_retry_at
cleared; DIVERGENT sets status divergent, anything else qualified.
call_analyzed stores the transcript. -/
def retellWebhookDaypart (sigValid : Bool) (now vmDraw minDraw : Nat)
    (evtType callId : String) (e : CallEndedEvent) (db : Db) :
    HttpResponse × Db :=
  if !sigValid then (HttpResponse.noResponse, db)
  else
    match findAttemptByCallId db callId with
    | none => (HttpResponse.ok, db)
    | some attempt =>
      if evtType == "call_started" then
        (HttpResponse.ok,
         updateAttempt db attempt.id (fun a => { a with startedAt := some now }))
      else if evtType == "call_ended" then
        let db1 := stampEnded db attempt.id now (storedOutcomeDaypart e)
        match findLead db1 attempt.leadId with
        | none => (HttpResponse.ok, db1)
        | some lead =>
          if noHumanDaypart e then
            let nextN := maxAttemptNo db1 lead.id + 1
            if nextN ≤ 3 then
              (HttpResponse.ok, updateLead db1 lead.id (fun l =>
                { l with status := "no_answer",
                         nextRetryAt := some (computeNextRetryDaypart now nextN
                           (inVoicemailDaypart e) vmDraw minDraw) }))
            else
              (HttpResponse.ok, updateLead db1 lead.id (fun l =>
                { l with status := "whatsapp_outreach",
                         preferredChannel := "whatsapp", nextRetryAt := none }))
          else if divergentOutcome e then
            (HttpResponse.ok,
             updateLead db1 lead.id (fun l => { l with status := "divergent" }))
          else
            (HttpResponse.ok,
             updateLead db1 lead.id (fun l => { l with status := "qualified" }))
      else if evtType == "call_analyzed" then
        (HttpResponse.ok,
         updateAttempt db attempt.id (fun a => { a with transcript := some e.transcript }))
      else (HttpResponse.ok, db)

/-- The webhook of the appointment-aware variant: identical skeleton, but the
call_ended lead branch tests inVoicemail (the voicemail_reached disconnect
code) rather than NO_HUMAN, and next_retry_at comes from the appointment-aware
computeNextRetry. -/
def retellWebhookVR (sigValid : Bool) (now vmDraw : Nat)
    (evtType callId : String) (e : CallEndedEvent) (db : Db) :
    HttpResponse × Db :=
  if !sigValid then (HttpResponse.noResponse, db)
  else
    match findAttemptByCallId db callId with
    | none => (HttpResponse.ok, db)
    | some attempt =>
      if evtType == "call_started" then
        (HttpResponse.ok,
         updateAttempt db attempt.id (fun a => { a with startedAt := some now }))
      else if evtType == "call_ended" then
        let db1 := stampEnded db attempt.id now (storedOutcomeVR e)
        match findLead db1 attempt.leadId with
        | none => (HttpResponse.ok, db1)
        | some lead =>
          if inVoicemailVR e then
            let nextN := maxAttemptNo db1 lead.id + 1
            if nextN ≤ 3 then
              (HttpResponse.ok, updateLead db1 lead.id (fun l =>
                { l with status := "no_answer",
                         nextRetryAt := some (computeNextRetry now
                           (inVoicemailVR e) vmDraw
                           (nearestFutureAppt db1 now lead.id)) }))
            else
              (HttpResponse.ok, updateLead db1 lead.id (fun l =>
                { l with status := "whatsapp_outreach",
                         preferredChannel := "whatsapp", nextRetryAt := none }))
          else if divergentOutcome e then
            (HttpResponse.ok,
             updateLead db1 lead.id (fun l => { l with status := "divergent" }))
          else
            (HttpResponse.ok,
             updateLead db1 lead.id (fun l => { l with status := "qualified" }))
      else if evtType == "call_analyzed" then
        (HttpResponse.ok,
         updateAttempt db attempt.id (fun a => { a with transcript := some e.transcript }))
      else (HttpResponse.ok, db)

/-- The verifyRetell middleware (middleware/verifyRetell.js): an invalid
signature is answered 401 before the route handler runs. -/
def verifyRetellGate (sigValid : Bool) (handler : Db → HttpResponse × Db)
    (db : Db) : HttpResponse × Db :=
  if sigValid then handler db else (HttpResponse.unauthorized, db)

/-!
Periodic Sweep (src/scheduler.js, retry cron).  The cron runs every 10
minutes; per lead it skips when a call attempt is in flight, escalates to
WhatsApp when the next attempt number exceeds max_attempts (JavaScript falsy
fallback 3), skips when fewer than 2 hours have passed since the last started
attempt, and otherwise dispatches a new attempt (outcome initiated,
started_at now) and sets the lead to calling with next_retry_at cleared;
a dispatch exception is caught per lead and parks the lead as retry_failed
with next_retry_at 30 minutes ahead.
-/

/-- isWithinBusinessHours of scheduler.js: Monday..Saturday, 8 <= hour < 20. -/
def isWithinBusinessHours (now : Nat) : Bool :=
  decide (1 ≤ getDay now ∧ getDay now ≤ 6 ∧ 8 ≤ getHours now ∧ getHours now < 20)

/-- An attempt that is dispatched and not yet ended. -/
def isInFlight (lid : Nat) (a : Attempt) : Bool :=
  a.leadId == lid && a.outcome == some "initiated" && a.endedAt == none

/-- isLeadAlreadyBeingProcessed of scheduler.js. -/
def isLeadAlreadyBeingProcessed (db : Db) (lid : Nat) : Bool :=
  db.attempts.any (isInFlight lid)

def inFlightCount (db : Db) (lid : Nat) : Nat :=
  db.attempts.countP (isInFlight lid)

/-- Row produced by select started_at ... order by started_at desc limit 1:
none when the lead has no attempts; some none when an attempt without
started_at exists (descending order puts nulls first); otherwise the latest
started_at. -/
def topStartedAtDesc (db : Db) (lid : Nat) : Option (Option Nat) :=
  let rows := db.attempts.filter (fun a => a.leadId == lid)
  if rows.isEmpty then none
  else if rows.any (fun a => a.startedAt == none) then some none
  else some ((rows.filterMap (fun a => a.startedAt)).max?)

/-- canRetryNow of scheduler.js: true without a previous started attempt,
else at least minGapHours must have elapsed since the last start. -/
def canRetryNow (db : Db) (now lid minGapHours : Nat) : Bool :=
  match topStartedAtDesc db lid with
  | none => true
  | some none => true
  | some (some t) => decide (t + minGapHours * 60 ≤ now)

/-- lead.max_attempts with the JavaScript falsy fallback (null or 0 gives 3). -/
def maxAttemptsOf (l : Lead) : Nat :=
  match l.maxAttempts with
  | none => 3
  | some m => if m = 0 then 3 else m

/-- Which leads the retry cron selects: next_retry_at elapsed, status one of
no_answer/reschedule/call_failed, and an assigned agent. -/
def sweepSelects (now : Nat) (l : Lead) : Bool :=
  (match l.nextRetryAt with
   | none => false
   | some t => decide (t ≤ now))
  && (l.status == "no_answer" || l.status == "reschedule" || l.status == "call_failed")
  && l.assignedAgent

def freshAttemptId (db : Db) : Nat :=
  db.attempts.foldr (fun a m => Nat.max a.id m) 0 + 1

/-- One iteration of the retry cron for a single lead.  dispatchOk models whether
agentManager.makeOutboundCall succeeds; newCallId is the call handle it
returns. -/
def sweepLead (db : Db) (now : Nat) (lead : Lead) (dispatchOk : Bool)
    (newCallId : String) : Db :=
  if isLeadAlreadyBeingProcessed db lead.id then db
  else
    let nextN := maxAttemptNoAux db.attempts lead.id + 1
    if maxAttemptsOf lead < nextN then
      updateLead db lead.id (fun l =>
        { l with status := "whatsapp_outreach", preferredChannel := "whatsapp",
                 nextRetryAt := none })
    else if !canRetryNow db now lead.id 2 then db
    else if dispatchOk then
      let db1 := insertAttempt db
        { id := freshAttemptId db, leadId := lead.id, attemptNo := nextN,
          retellCallId := newCallId, startedAt := some now, endedAt := none,
          outcome := some "initiated", transcript := none }
      updateLead db1 lead.id (fun l =>
        { l with status := "calling", nextRetryAt := none })
    else
      updateLead db lead.id (fun l =>
        { l with status := "retry_failed", nextRetryAt := some (now + 30) })

/-- The statuses the retry cron re-selects (the retry-pending states). -/
def retryPendingStatuses : List String := ["no_answer", "reschedule", "call_failed"]

/-!
Concrete instances used by the per-claim counterexamples and witnesses.
-/

def c1lead : Lead :=
  { id := 1, status := "calling", nextRetryAt := none, preferredChannel := "call",
    maxAttempts := some 3, assignedAgent := true }

def c1att : Attempt :=
  { id := 1, leadId := 1, attemptNo := 1, retellCallId := "c1",
    startedAt := some 10, endedAt := none, outcome := some "initiated",
    transcript := none }

def c1db : Db := { leads := [c1lead], attempts := [c1att], appointments := [] }

/-- A call_ended event whose only signal is the text "dial_busy": classified
no-human-reached by the text pattern, not by the voicemail disconnect code. -/
def c1evt : CallEndedEvent :=
  { evtOutcome := none, disconnectionReason := some "dial_busy",
    callStatus := none, summaryResult := none, summaryCallOutcome := none,
    analysisInVoicemail := false, transcript := "", collected := "" }

def c2lead : Lead :=
  { id := 2, status := "calling", nextRetryAt := none, preferredChannel := "call",
    maxAttempts := some 2, assignedAgent := true }

def c2att : Attempt :=
  { id := 1, leadId := 2, attemptNo := 2, retellCallId := "c2",
    startedAt := some 10, endedAt := none, outcome := some "ended",
    transcript := none }

def c2db : Db := { leads := [c2lead], attempts := [c2att], appointments := [] }

def c2evt : CallEndedEvent :=
  { evtOutcome := none, disconnectionReason := none, callStatus := some "busy",
    summaryResult := none, summaryCallOutcome := none,
    analysisInVoicemail := false, transcript := "", collected := "" }

def c2wlead : Lead :=
  { id := 3, status := "no_answer", nextRetryAt := some 50,
    preferredChannel := "call", maxAttempts := none, assignedAgent := true }

def c2watt : Attempt :=
  { id := 1, leadId := 3, attemptNo := 3, retellCallId := "w2",
    startedAt := some 10, endedAt := some 20, outcome := some "ended",
    transcript := none }

def c2wdb : Db := { leads := [c2wlead], attempts := [c2watt], appointments := [] }

def c6lead : Lead :=
  { id := 7, status := "calling", nextRetryAt := none, preferredChannel := "call",
    maxAttempts := some 3, assignedAgent := true }

def c6att : Attempt :=
  { id := 4, leadId := 7, attemptNo := 1, retellCallId := "c6",
    startedAt := some 10, endedAt := none, outcome := some "initiated",
    transcript := none }

def c6db : Db := { leads := [c6lead], attempts := [c6att], appointments := [] }

def c6evt : CallEndedEvent :=
  { evtOutcome := none, disconnectionReason := none, callStatus := none,
    summaryResult := some "dados divergentes", summaryCallOutcome := none,
    analysisInVoicemail := false, transcript := "", collected := "" }

/-- An event carrying no recognizable signal at all. -/
def c6empty : CallEndedEvent :=
  { evtOutcome := none, disconnectionReason := none, callStatus := none,
    summaryResult := none, summaryCallOutcome := none,
    analysisInVoicemail := false, transcript := "", collected := "" }

def c7lead : Lead :=
  { id := 4, status := "no_answer", nextRetryAt := some 500,
    preferredChannel := "call", maxAttempts := some 3, assignedAgent := true }

/-- An attempt already stamped ended_at. -/
def c7att : Attempt :=
  { id := 9, leadId := 4, attemptNo := 1, retellCallId := "c7",
    startedAt := some 40, endedAt := some 50, outcome := some "ended",
    transcript := none }

def c7db : Db := { leads := [c7lead], attempts := [c7att], appointments := [] }

def c7evt : CallEndedEvent :=
  { evtOutcome := none, disconnectionReason := none,
    callStatus := some "mismatch name", summaryResult := none,
    summaryCallOutcome := none, analysisInVoicemail := false,
    transcript := "", collected := "" }

def c8lead : Lead :=
  { id := 5, status := "no_answer", nextRetryAt := some 700,
    preferredChannel := "call", maxAttempts := some 3, assignedAgent := true }

def c8att : Attempt :=
  { id := 2, leadId := 5, attemptNo := 1, retellCallId := "c8",
    startedAt := some 10, endedAt := none, outcome := some "ended",
    transcript := none }

def c8db : Db := { leads := [c8lead], attempts := [c8att], appointments := [] }

def c8evt : CallEndedEvent :=
  { evtOutcome := none, disconnectionReason := none,
    callStatus := some "name mismatch", summaryResult := none,
    summaryCallOutcome := none, analysisInVoicemail := false,
    transcript := "", collected := "" }

def c9lead : Lead :=
  { id := 6, status := "no_answer", nextRetryAt := some 50,
    preferredChannel := "call", maxAttempts := none, assignedAgent := true }

/-- An in-flight attempt: dispatched (outcome initiated) and not ended. -/
def c9att : Attempt :=
  { id := 3, leadId := 6, attemptNo := 1, retellCallId := "c9",
    startedAt := some 10, endedAt := none, outcome := some "initiated",
    transcript := none }

def c9db : Db := { leads := [c9lead], attempts := [c9att], appointments := [] }

def c10db : Db := { leads := [], attempts := [], appointments := [] }

def c10evt : CallEndedEvent :=
  { evtOutcome := none, disconnectionReason := none, callStatus := none,
    summaryResult := none, summaryCallOutcome := none,
    analysisInVoicemail := false, transcript := "", collected := "" }

/-!
Arithmetic facts about the time model.
-/

theorem getDay_lt_7 (t : Nat) : getDay t < 7 := Nat.mod_lt _ (by norm_num)

theorem skipSundays_eq (t : Nat) :
    skipSundays t = if getDay t = 0 then t + 1440 else t := by
  by_cases h : getDay t = 0
  · have h1 : ¬ getDay (t + 1440) = 0 := by
      simp only [getDay] at h ⊢
      omega
    simp [skipSundays, skipSundaysFuel, h, h1]
  · simp [skipSundays, skipSundaysFuel, h]

theorem getDay_skipSundays (t : Nat) : getDay (skipSundays t) ≠ 0 := by
  rw [skipSundays_eq]
  by_cases h : getDay t = 0
  · simp only [h, if_true]
    simp only [getDay] at h ⊢
    omega
  · simp [h]

theorem skipSundays_le (t : Nat) : t ≤ skipSundays t := by
  rw [skipSundays_eq]
  split <;> omega

theorem timeOfDay_setHours (t h : Nat) (hh : h < 24) :
    timeOfDay (setHours t h) = h * 60 := by
  simp only [timeOfDay, setHours, startOfDay]
  omega

theorem getDay_setHours (t h : Nat) (hh : h < 24) :
    getDay (setHours t h) = getDay t := by
  simp only [getDay, setHours, startOfDay]
  omega

theorem getDay_addDays (t n : Nat) : getDay (addDays t n) = (getDay t + n) % 7 := by
  simp only [getDay, addDays]
  omega

/-!
Plumbing lemmas about the database model.
-/

theorem findLead_stampEnded (db : Db) (aid t : Nat) (oc : String) (lid : Nat) :
    findLead (stampEnded db aid t oc) lid = findLead db lid := rfl

theorem attempts_updateLead (db : Db) (lid : Nat) (f : Lead → Lead) :
    (updateLead db lid f).attempts = db.attempts := rfl

theorem findLead_id {db : Db} {lid : Nat} {l : Lead}
    (h : findLead db lid = some l) : l.id = lid := by
  unfold findLead at h
  have hp := List.find?_some h
  simpa using hp

theorem findLead_updateLead (db : Db) (lid : Nat) (f : Lead → Lead)
    (hf : ∀ l, (f l).id = l.id) :
    findLead (updateLead db lid f) lid = (findLead db lid).map f := by
  unfold findLead updateLead
  induction db.leads with
  | nil => rfl
  | cons x xs ih =>
    by_cases h : (x.id == lid) = true
    · simp [List.find?, h, hf x]
    · simpa [List.find?, h] using ih

theorem maxAttemptNoAux_stamp (l : List Attempt) (aid t : Nat) (oc : String)
    (lid : Nat) :
    maxAttemptNoAux (l.map (fun a =>
      if a.id == aid then { a with endedAt := some t, outcome := some oc } else a))
      lid = maxAttemptNoAux l lid := by
  induction l with
  | nil => rfl
  | cons x xs ih =>
    simp only [List.map_cons, maxAttemptNoAux, List.foldr_cons]
    simp only [maxAttemptNoAux] at ih
    rw [ih]
    by_cases h : (x.id == aid) = true <;> simp [h]

theorem maxAttemptNo_stampEnded (db : Db) (aid t : Nat) (oc : String)
    (lid : Nat) :
    maxAttemptNo (stampEnded db aid t oc) lid = maxAttemptNo db lid := by
  unfold maxAttemptNo stampEnded updateAttempt
  simp only [maxAttemptNoAux_stamp]

theorem inFlightCount_eq_zero (db : Db) (lid : Nat)
    (h : isLeadAlreadyBeingProcessed db lid = false) :
    inFlightCount db lid = 0 := by
  unfold isLeadAlreadyBeingProcessed at h
  unfold inFlightCount
  rw [List.countP_eq_zero]
  intro a ha hp
  have : db.attempts.any (isInFlight lid) = true := List.any_eq_true.mpr ⟨a, ha, hp⟩
  rw [h] at this
  exact Bool.false_ne_true this

theorem inFlightCount_insert (db : Db) (a : Attempt) (lid : Nat) :
    inFlightCount (insertAttempt db a) lid =
      inFlightCount db lid + (if isInFlight lid a then 1 else 0) := by
  unfold inFlightCount insertAttempt
  simp [List.countP_append, List.countP_cons]

theorem inFlightCount_updateLead (db : Db) (lid lid2 : Nat) (f : Lead → Lead) :
    inFlightCount (updateLead db lid2 f) lid = inFlightCount db lid := rfl

/-!
Branch behavior of the call_ended path of the day-part webhook.
-/

theorem beq_call_started : (("call_ended" : String) == "call_started") = false := rfl

theorem beq_call_ended : (("call_ended" : String) == "call_ended") = true := rfl

theorem webhookDaypart_noHuman_retry
    (db : Db) (now vmDraw minDraw : Nat) (cid : String) (e : CallEndedEvent)
    (a : Attempt) (lead : Lead)
    (ha : findAttemptByCallId db cid = some a)
    (hl : findLead db a.leadId = some lead)
    (hn : noHumanDaypart e = true)
    (h3 : maxAttemptNo db a.leadId + 1 ≤ 3) :
    retellWebhookDaypart true now vmDraw minDraw "call_ended" cid e db =
      (HttpResponse.ok,
       updateLead (stampEnded db a.id now (storedOutcomeDaypart e)) a.leadId
         (fun l => { l with
                     status := "no_answer",
                     nextRetryAt := some (computeNextRetryDaypart now
                       (maxAttemptNo db a.leadId + 1)
                       (inVoicemailDaypart e) vmDraw minDraw) })) := by
  have hid : lead.id = a.leadId := findLead_id hl
  simp only [retellWebhookDaypart, Bool.not_true, Bool.false_eq_true, if_false,
    ha, beq_call_started, beq_call_ended, if_true, findLead_stampEnded, hl,
    maxAttemptNo_stampEnded, hid, hn, h3]

theorem webhookDaypart_noHuman_escalate
    (db : Db) (now vmDraw minDraw : Nat) (cid : String) (e : CallEndedEvent)
    (a : Attempt) (lead : Lead)
    (ha : findAttemptByCallId db cid = some a)
    (hl : findLead db a.leadId = some lead)
    (hn : noHumanDaypart e = true)
    (h3 : 3 < maxAttemptNo db a.leadId + 1) :
    retellWebhookDaypart true now vmDraw minDraw "call_ended" cid e db =
      (HttpResponse.ok,
       updateLead (stampEnded db a.id now (storedOutcomeDaypart e)) a.leadId
         (fun l => { l with
                     status := "whatsapp_outreach",
                     preferredChannel := "whatsapp",
                     nextRetryAt := none })) := by
  have hid : lead.id = a.leadId := findLead_id hl
  have h3n : ¬ (maxAttemptNo db a.leadId + 1 ≤ 3) := by omega
  simp only [retellWebhookDaypart, Bool.not_true, Bool.false_eq_true, if_false,
    ha, beq_call_started, beq_call_ended, if_true, findLead_stampEnded, hl,
    maxAttemptNo_stampEnded, hid, hn, h3n]

theorem webhookDaypart_divergent
    (db : Db) (now vmDraw minDraw : Nat) (cid : String) (e : CallEndedEvent)
    (a : Attempt) (lead : Lead)
    (ha : findAttemptByCallId db cid = some a)
    (hl : findLead db a.leadId = some lead)
    (hn : noHumanDaypart e = false)
    (hd : divergentOutcome e = true) :
    retellWebhookDaypart true now vmDraw minDraw "call_ended" cid e db =
      (HttpResponse.ok,
       updateLead (stampEnded db a.id now (storedOutcomeDaypart e)) a.leadId
         (fun l => { l with status := "divergent" })) := by
  have hid : lead.id = a.leadId := findLead_id hl
  simp only [retellWebhookDaypart, Bool.not_true, Bool.false_eq_true, if_false,
    ha, beq_call_started, beq_call_ended, if_true, findLead_stampEnded, hl,
    maxAttemptNo_stampEnded, hid, hn, hd]

theorem webhookDaypart_qualified
    (db : Db) (now vmDraw minDraw : Nat) (cid : String) (e : CallEndedEvent)
    (a : Attempt) (lead : Lead)
    (ha : findAttemptByCallId db cid = some a)
    (hl : findLead db a.leadId = some lead)
    (hn : noHumanDaypart e = false)
    (hd : divergentOutcome e = false) :
    retellWebhookDaypart true now vmDraw minDraw "call_ended" cid e db =
      (HttpResponse.ok,
       updateLead (stampEnded db a.id now (storedOutcomeDaypart e)) a.leadId
         (fun l => { l with status := "qualified" })) := by
  have hid : lead.id = a.leadId := findLead_id hl
  simp only [retellWebhookDaypart, Bool.not_true, Bool.false_eq_true, if_false,
    ha, beq_call_started, beq_call_ended, if_true, findLead_stampEnded, hl,
    maxAttemptNo_stampEnded, hid, hn, hd]

theorem webhookDaypart_unknown_handle
    (db : Db) (now vmDraw minDraw : Nat) (ty cid : String) (e : CallEndedEvent)
    (ha : findAttemptByCallId db cid = none) :
    retellWebhookDaypart true now vmDraw minDraw ty cid e db =
      (HttpResponse.ok, db) := by
  simp only [retellWebhookDaypart, Bool.not_true, Bool.false_eq_true, if_false, ha]

theorem webhookDaypart_call_ended_attempts
    (db : Db) (now vmDraw minDraw : Nat) (cid : String) (e : CallEndedEvent)
    (a : Attempt)
    (ha : findAttemptByCallId db cid = some a) :
    (retellWebhookDaypart true now vmDraw minDraw "call_ended" cid e db).2.attempts =
      (stampEnded db a.id now (storedOutcomeDaypart e)).attempts := by
  simp only [retellWebhookDaypart, Bool.not_true, Bool.false_eq_true, if_false,
    ha, beq_call_started, beq_call_ended, if_true]
  cases hfl : findLead (stampEnded db a.id now (storedOutcomeDaypart e)) a.leadId with
  | none => rfl
  | some lead =>
    by_cases hn : noHumanDaypart e = true
    · by_cases h3 : maxAttemptNo (stampEnded db a.id now (storedOutcomeDaypart e)) lead.id + 1 ≤ 3
      · simp [hn, h3, attempts_updateLead]
      · simp [hn, h3, attempts_updateLead]
    · by_cases hd : divergentOutcome e = true
      · simp [Bool.eq_false_iff.mpr hn, hd, attempts_updateLead]
      · simp [Bool.eq_false_iff.mpr hn, Bool.eq_false_iff.mpr hd, attempts_updateLead]

/-!
Branch behavior of one retry-cron iteration.
-/

theorem sweepLead_inFlight (db : Db) (now : Nat) (lead : Lead) (dOk : Bool)
    (cid : String) (h : isLeadAlreadyBeingProcessed db lead.id = true) :
    sweepLead db now lead dOk cid = db := by
  simp [sweepLead, h]

theorem sweepLead_escalate (db : Db) (now : Nat) (lead : Lead) (dOk : Bool)
    (cid : String)
    (h1 : isLeadAlreadyBeingProcessed db lead.id = false)
    (h2 : maxAttemptsOf lead < maxAttemptNoAux db.attempts lead.id + 1) :
    sweepLead db now lead dOk cid =
      updateLead db lead.id (fun l => { l with
        status := "whatsapp_outreach", preferredChannel := "whatsapp",
        nextRetryAt := none }) := by
  simp [sweepLead, h1, h2]

theorem sweepLead_tooSoon (db : Db) (now : Nat) (lead : Lead) (dOk : Bool)
    (cid : String)
    (h1 : isLeadAlreadyBeingProcessed db lead.id = false)
    (h2 : ¬ maxAttemptsOf lead < maxAttemptNoAux db.attempts lead.id + 1)
    (h3 : canRetryNow db now lead.id 2 = false) :
    sweepLead db now lead dOk cid = db := by
  simp [sweepLead, h1, h2, h3]

theorem sweepLead_dispatch (db : Db) (now : Nat) (lead : Lead) (cid : String)
    (h1 : isLeadAlreadyBeingProcessed db lead.id = false)
    (h2 : ¬ maxAttemptsOf lead < maxAttemptNoAux db.attempts lead.id + 1)
    (h3 : canRetryNow db now lead.id 2 = true) :
    sweepLead db now lead true cid =
      updateLead (insertAttempt db
        { id := freshAttemptId db, leadId := lead.id,
          attemptNo := maxAttemptNoAux db.attempts lead.id + 1,
          retellCallId := cid, startedAt := some now, endedAt := none,
          outcome := some "initiated", transcript := none }) lead.id
        (fun l => { l with status := "calling", nextRetryAt := none }) := by
  simp [sweepLead, h1, h2, h3]

theorem sweepLead_dispatchFail (db : Db) (now : Nat) (lead : Lead) (cid : String)
    (h1 : isLeadAlreadyBeingProcessed db lead.id = false)
    (h2 : ¬ maxAttemptsOf lead < maxAttemptNoAux db.attempts lead.id + 1)
    (h3 : canRetryNow db now lead.id 2 = true) :
    sweepLead db now lead false cid =
      updateLead db lead.id (fun l => { l with
        status := "retry_failed", nextRetryAt := some (now + 30) }) := by
  simp [sweepLead, h1, h2, h3]

/-!
Business-window facts about the slot computation.
-/

theorem calculateNextSlot_window (t : Nat) :
    1 ≤ getDay (calculateNextSlot t) ∧ getDay (calculateNextSlot t) ≤ 6 ∧
    480 ≤ timeOfDay (calculateNextSlot t) ∧ timeOfDay (calculateNextSlot t) < 1200 := by
  simp only [calculateNextSlot]
  by_cases hw : 8 ≤ getHours (t + 120) ∧ getHours (t + 120) < 20
  · rw [if_pos hw]
    by_cases hdy : 1 ≤ getDay (t + 120) ∧ getDay (t + 120) ≤ 6
    · rw [if_pos hdy]
      obtain ⟨hw1, hw2⟩ := hw
      refine ⟨hdy.1, hdy.2, ?_, ?_⟩ <;>
        (simp only [getHours, timeOfDay] at hw1 hw2 ⊢; omega)
    · rw [if_neg hdy]
      have h0 : getDay (t + 120) = 0 := by
        have := getDay_lt_7 (t + 120)
        omega
      have hg : getDay (setHours (addDays (t + 120) (8 - getDay (t + 120))) 8) = 1 := by
        rw [getDay_setHours _ _ (by norm_num), h0, getDay_addDays, h0]
      have htd : timeOfDay (setHours (addDays (t + 120) (8 - getDay (t + 120))) 8) = 480 := by
        rw [timeOfDay_setHours _ _ (by norm_num)]
      rw [hg, htd]
      norm_num
  · rw [if_neg hw]
    have hg := getDay_skipSundays
      (if 20 ≤ getHours (t + 120) then addDays (t + 120) 1 else t + 120)
    have h7 := getDay_lt_7
      (skipSundays (if 20 ≤ getHours (t + 120) then addDays (t + 120) 1 else t + 120))
    rw [getDay_setHours _ _ (by norm_num), timeOfDay_setHours _ _ (by norm_num)]
    omega

/-!
Claims.
-/

/-- Claim C3 counterexample: with the legal random draw 0 the voicemail
branch returns exactly now + 15 minutes, so the returned timestamp is not
strictly between 15 and 25 minutes after the current time. -/
theorem c3_counterexample :
    (0 : Nat) < 11 ∧
    computeNextRetry 0 true 0 none = 0 + 15 ∧
    ¬ (0 + 15 < computeNextRetry 0 true 0 none ∧
       computeNextRetry 0 true 0 none < 0 + 25) := by decide

/-- Claim C3 (amended): for every invocation of the retry computation with a
voicemail outcome, whatever the random draw, the returned timestamp is
between 15 and 25 minutes after the current time, both bounds inclusive —
in both webhook variants of the computation. -/
theorem c3_voicemail_bounds (now vmDraw attemptNo minDraw : Nat)
    (appt : Option Nat) (h : vmDraw ≤ 10) :
    (now + 15 ≤ computeNextRetry now true vmDraw appt ∧
     computeNextRetry now true vmDraw appt ≤ now + 25) ∧
    (now + 15 ≤ computeNextRetryDaypart now attemptNo true vmDraw minDraw ∧
     computeNextRetryDaypart now attemptNo true vmDraw minDraw ≤ now + 25) := by
  simp only [computeNextRetry, computeNextRetryDaypart, if_true]
  omega

/-- Claim C3 witness. -/
theorem c3_witness :
    (0 : Nat) ≤ 10 ∧
    ((100 + 15 ≤ computeNextRetry 100 true 0 none ∧
      computeNextRetry 100 true 0 none ≤ 100 + 25) ∧
     (100 + 15 ≤ computeNextRetryDaypart 100 2 true 0 0 ∧
      computeNextRetryDaypart 100 2 true 0 0 ≤ 100 + 25)) :=
  ⟨by decide, c3_voicemail_bounds 100 0 2 0 none (by decide)⟩

/-- Claim C4 counterexample: at now = 600 (a Sunday 10:00) the candidate
600 + 120 lands on Sunday inside 08:00-20:00; the code returns 12000, the
Monday of the following week at 08:00, although 1920 — the very next Monday
at 08:00, a valid business slot after the candidate — comes first.  The
result therefore does not advance to the next valid business day. -/
theorem c4_counterexample :
    getDay (600 + 120) = 0 ∧
    8 ≤ getHours (600 + 120) ∧ getHours (600 + 120) < 20 ∧
    calculateNextSlot 600 = 12000 ∧
    getDay 1920 = 1 ∧ timeOfDay 1920 = 480 ∧
    600 + 120 < 1920 ∧ 1920 < 12000 := by decide

/-- Claim C4 (amended): the non-voicemail slot always lies within
Monday-Saturday 08:00-20:00; an in-window weekday candidate (now + 2h) is
returned unchanged; a candidate outside 08:00-20:00 advances to 08:00 of the
next non-Sunday day (next day first when at or past 20:00); but a Sunday
candidate inside 08:00-20:00 is moved eight days ahead — the Monday of the
following week — at 08:00, not to the next business day.  The full
non-voicemail retry computation also always lands in the business window. -/
theorem c4_business_window (t : Nat) :
    (1 ≤ getDay (calculateNextSlot t) ∧ getDay (calculateNextSlot t) ≤ 6 ∧
     480 ≤ timeOfDay (calculateNextSlot t) ∧ timeOfDay (calculateNextSlot t) < 1200) ∧
    (8 ≤ getHours (t + 120) → getHours (t + 120) < 20 → getDay (t + 120) ≠ 0 →
      calculateNextSlot t = t + 120) ∧
    (8 ≤ getHours (t + 120) → getHours (t + 120) < 20 → getDay (t + 120) = 0 →
      calculateNextSlot t = setHours (addDays (t + 120) 8) 8) ∧
    (¬ (8 ≤ getHours (t + 120) ∧ getHours (t + 120) < 20) →
      calculateNextSlot t =
        setHours (skipSundays
          (if 20 ≤ getHours (t + 120) then addDays (t + 120) 1 else t + 120)) 8) ∧
    (∀ vmDraw appt,
      1 ≤ getDay (computeNextRetry t false vmDraw appt) ∧
      getDay (computeNextRetry t false vmDraw appt) ≤ 6 ∧
      480 ≤ timeOfDay (computeNextRetry t false vmDraw appt) ∧
      timeOfDay (computeNextRetry t false vmDraw appt) < 1200) := by
  refine ⟨calculateNextSlot_window t, ?_, ?_, ?_, ?_⟩
  · intro h1 h2 h3
    have h7 := getDay_lt_7 (t + 120)
    simp only [calculateNextSlot]
    rw [if_pos ⟨h1, h2⟩, if_pos ⟨by omega, by omega⟩]
  · intro h1 h2 h0
    simp only [calculateNextSlot]
    rw [if_pos ⟨h1, h2⟩, if_neg (by omega), h0]
  · intro h
    simp only [calculateNextSlot]
    rw [if_neg h]
  · intro vmDraw appt
    cases appt with
    | none => simpa [computeNextRetry] using calculateNextSlot_window t
    | some u =>
      by_cases hd : absDiff u (calculateNextSlot t) < 120
      · have he : computeNextRetry t false vmDraw (some u) =
            setHours (skipSundays (addDays (calculateNextSlot t) 1)) 8 := by
          simp [computeNextRetry, hd]
        rw [he, getDay_setHours _ _ (by norm_num), timeOfDay_setHours _ _ (by norm_num)]
        have hg := getDay_skipSundays (addDays (calculateNextSlot t) 1)
        have h7 := getDay_lt_7 (skipSundays (addDays (calculateNextSlot t) 1))
        omega
      · have he : computeNextRetry t false vmDraw (some u) = calculateNextSlot t := by
          simp [computeNextRetry, hd]
        rw [he]
        exact calculateNextSlot_window t

/-- Claim C4 witness. -/
theorem c4_witness :
    calculateNextSlot 2000 = 2000 + 120 ∧
    calculateNextSlot 600 = setHours (addDays (600 + 120) 8) 8 ∧
    calculateNextSlot 0 =
      setHours (skipSundays
        (if 20 ≤ getHours (0 + 120) then addDays (0 + 120) 1 else 0 + 120)) 8 :=
  ⟨(c4_business_window 2000).2.1 (by decide) (by decide) (by decide),
   (c4_business_window 600).2.2.1 (by decide) (by decide) (by decide),
   (c4_business_window 0).2.2.2.1 (by decide)⟩

set_option maxRecDepth 8000 in
/-- Claim C5: when the candidate retry slot is strictly within 2 hours of the
nearest future appointment of the lead (either direction), the scheduler pushes
the slot one full day forward, skipping Sunday, to 08:00 — a strictly later
business day at 08:00.  In particular (Scenario D, epoch Sunday 00:00): at
now = 9690 (Saturday 17:30) the candidate slot is 9810 (Saturday 19:30);
with an appointment at 9855 (Saturday 20:15, 45 minutes away) the result is
12000, Monday 08:00. -/
theorem c5_appointment_push (now vmDraw appt : Nat)
    (h : absDiff appt (calculateNextSlot now) < 120) :
    (computeNextRetry now false vmDraw (some appt) =
      setHours (skipSundays (addDays (calculateNextSlot now) 1)) 8 ∧
     getDay (computeNextRetry now false vmDraw (some appt)) ≠ 0 ∧
     timeOfDay (computeNextRetry now false vmDraw (some appt)) = 480 ∧
     calculateNextSlot now < computeNextRetry now false vmDraw (some appt)) ∧
    (calculateNextSlot 9690 = 9810 ∧ getDay 9810 = 6 ∧ timeOfDay 9810 = 1170 ∧
     computeNextRetry 9690 false 0 (some 9855) = 12000 ∧
     getDay 12000 = 1 ∧ timeOfDay 12000 = 480) := by
  have he : computeNextRetry now false vmDraw (some appt) =
      setHours (skipSundays (addDays (calculateNextSlot now) 1)) 8 := by
    simp [computeNextRetry, h]
  refine ⟨⟨he, ?_, ?_, ?_⟩, by decide⟩
  · rw [he, getDay_setHours _ _ (by norm_num)]
    exact getDay_skipSundays _
  · rw [he, timeOfDay_setHours _ _ (by norm_num)]
  · rw [he]
    have h1 := skipSundays_le (addDays (calculateNextSlot now) 1)
    simp only [setHours, startOfDay, addDays] at h1 ⊢
    omega

set_option maxRecDepth 8000 in
/-- Claim C5 witness (Scenario D instantiation). -/
theorem c5_witness :
    absDiff 9855 (calculateNextSlot 9690) < 120 ∧
    ((computeNextRetry 9690 false 0 (some 9855) =
        setHours (skipSundays (addDays (calculateNextSlot 9690) 1)) 8 ∧
      getDay (computeNextRetry 9690 false 0 (some 9855)) ≠ 0 ∧
      timeOfDay (computeNextRetry 9690 false 0 (some 9855)) = 480 ∧
      calculateNextSlot 9690 < computeNextRetry 9690 false 0 (some 9855)) ∧
     (calculateNextSlot 9690 = 9810 ∧ getDay 9810 = 6 ∧ timeOfDay 9810 = 1170 ∧
      computeNextRetry 9690 false 0 (some 9855) = 12000 ∧
      getDay 12000 = 1 ∧ timeOfDay 12000 = 480)) :=
  ⟨by decide, c5_appointment_push 9690 0 9855 (by decide)⟩

/-- Claim C1 counterexample: in the appointment-aware webhook variant an
authenticated call_ended event for a known attempt that is classified
no-human-reached by the text pattern ("dial_busy"), with attempts remaining
under the cap, does not transition the lead to the retry-pending status: the
handler branches on the voicemail disconnect code alone and marks the lead
qualified, with no next_retry_at. -/
theorem c1_counterexample :
    noHumanVR c1evt = true ∧
    inVoicemailVR c1evt = false ∧
    maxAttemptNo c1db 1 + 1 ≤ 3 ∧
    (findLead (retellWebhookVR true 100 0 "call_ended" "c1" c1evt c1db).2 1).map
      Lead.status = some "qualified" ∧
    (findLead (retellWebhookVR true 100 0 "call_ended" "c1" c1evt c1db).2 1).map
      Lead.nextRetryAt = some none := by decide

/-- Claim C1 (amended): in the day-part webhook variant — the variant that
branches on the full no-human classification — every authenticated
call_ended event resolving to a known attempt and classified
no-human-reached, with attempts remaining under the cap, transitions the
lead to the retry-pending status no_answer with next_retry_at set to the
value computed by the retry scheduler; the appointment-aware variant does so
only for the voicemail disconnect code. -/
theorem c1_no_human_retry (db : Db) (now vmDraw minDraw : Nat) (cid : String)
    (e : CallEndedEvent) (a : Attempt) (lead : Lead)
    (ha : findAttemptByCallId db cid = some a)
    (hl : findLead db a.leadId = some lead)
    (hn : noHumanDaypart e = true)
    (h3 : maxAttemptNo db a.leadId + 1 ≤ 3) :
    (retellWebhookDaypart true now vmDraw minDraw "call_ended" cid e db).1 =
      HttpResponse.ok ∧
    findLead (retellWebhookDaypart true now vmDraw minDraw "call_ended" cid e db).2
      a.leadId =
      some { lead with
             status := "no_answer",
             nextRetryAt := some (computeNextRetryDaypart now
               (maxAttemptNo db a.leadId + 1) (inVoicemailDaypart e) vmDraw minDraw) } := by
  rw [webhookDaypart_noHuman_retry db now vmDraw minDraw cid e a lead ha hl hn h3]
  refine ⟨rfl, ?_⟩
  rw [findLead_updateLead, findLead_stampEnded, hl]
  · rfl
  · intro l
    rfl

/-- Claim C1 witness. -/
theorem c1_witness :
    (retellWebhookDaypart true 100 0 0 "call_ended" "c1" c1evt c1db).1 =
      HttpResponse.ok ∧
    findLead (retellWebhookDaypart true 100 0 0 "call_ended" "c1" c1evt c1db).2
      c1att.leadId =
      some { c1lead with
             status := "no_answer",
             nextRetryAt := some (computeNextRetryDaypart 100
               (maxAttemptNo c1db c1att.leadId + 1) (inVoicemailDaypart c1evt) 0 0) } :=
  c1_no_human_retry c1db 100 0 0 "c1" c1evt c1att c1lead
    (by decide) (by decide) (by decide) (by decide)

/-- Claim C2 counterexample: a lead with max_attempts = 2 whose next attempt
number is 3 (exceeding its cap) is nevertheless given a further voice retry
by the webhook call-ended path, which compares against the constant 3: the
lead is set to no_answer with a next_retry_at instead of the async channel. -/
theorem c2_counterexample :
    (findLead c2db 2).map Lead.maxAttempts = some (some 2) ∧
    maxAttemptsOf c2lead < maxAttemptNo c2db 2 + 1 ∧
    maxAttemptNo c2db 2 + 1 ≤ 3 ∧
    (findLead (retellWebhookDaypart true 100 0 0 "call_ended" "c2" c2evt c2db).2 2).map
      Lead.status = some "no_answer" ∧
    (findLead (retellWebhookDaypart true 100 0 0 "call_ended" "c2" c2evt c2db).2 2).map
      Lead.nextRetryAt = some (some 1140) := by decide

/-- Claim C2 (amended): once the next attempt number exceeds the cap, no
further voice retry is made and the lead moves to whatsapp_outreach with the
preferred channel whatsapp and next_retry_at cleared — in the sweep path the
cap is the max_attempts of the lead (falsy default 3), while in the webhook
call-ended path the cap is the constant 3, so there the property holds
whenever max_attempts is at least 3 (in particular at the default). -/
theorem c2_escalate_to_async :
    (∀ (db : Db) (now : Nat) (lead : Lead) (dOk : Bool) (cid : String) (l0 : Lead),
      isLeadAlreadyBeingProcessed db lead.id = false →
      maxAttemptsOf lead < maxAttemptNoAux db.attempts lead.id + 1 →
      findLead db lead.id = some l0 →
      findLead (sweepLead db now lead dOk cid) lead.id =
        some { l0 with
               status := "whatsapp_outreach",
               preferredChannel := "whatsapp",
               nextRetryAt := none } ∧
      (sweepLead db now lead dOk cid).attempts = db.attempts) ∧
    (∀ (db : Db) (now vmDraw minDraw : Nat) (cid : String) (e : CallEndedEvent)
      (a : Attempt) (lead : Lead),
      findAttemptByCallId db cid = some a →
      findLead db a.leadId = some lead →
      noHumanDaypart e = true →
      3 < maxAttemptNo db a.leadId + 1 →
      findLead (retellWebhookDaypart true now vmDraw minDraw "call_ended" cid e db).2
        a.leadId =
        some { lead with
               status := "whatsapp_outreach",
               preferredChannel := "whatsapp",
               nextRetryAt := none }) := by
  constructor
  · intro db now lead dOk cid l0 h1 h2 hfl
    rw [sweepLead_escalate db now lead dOk cid h1 h2]
    refine ⟨?_, rfl⟩
    rw [findLead_updateLead, hfl]
    · rfl
    · intro l
      rfl
  · intro db now vmDraw minDraw cid e a lead ha hl hn h3
    rw [webhookDaypart_noHuman_escalate db now vmDraw minDraw cid e a lead ha hl hn h3]
    rw [findLead_updateLead, findLead_stampEnded, hl]
    · rfl
    · intro l
      rfl

/-- Claim C2 witness: a lead at the default cap with three attempts logged is
escalated both by the sweep and by the webhook. -/
theorem c2_witness :
    (findLead (sweepLead c2wdb 100 c2wlead true "n" ) c2wlead.id =
       some { c2wlead with
              status := "whatsapp_outreach",
              preferredChannel := "whatsapp",
              nextRetryAt := none } ∧
     (sweepLead c2wdb 100 c2wlead true "n").attempts = c2wdb.attempts) ∧
    findLead (retellWebhookDaypart true 100 0 0 "call_ended" "w2" c2evt c2wdb).2
      c2watt.leadId =
      some { c2wlead with
             status := "whatsapp_outreach",
             preferredChannel := "whatsapp",
             nextRetryAt := none } :=
  ⟨c2_escalate_to_async.1 c2wdb 100 c2wlead true "n" c2wlead
     (by decide) (by decide) (by decide),
   c2_escalate_to_async.2 c2wdb 100 0 0 "w2" c2evt c2watt c2wlead
     (by decide) (by decide) (by decide) (by decide)⟩

theorem findLead_insertAttempt (db : Db) (a : Attempt) (lid : Nat) :
    findLead (insertAttempt db a) lid = findLead db lid := rfl

/-- Claim C6: a call_ended event not classified no-human-reached drives the
lead to the corresponding terminal status — divergent when the divergent
pattern matches, qualified otherwise — and the update writes no
next_retry_at (the field is left exactly as it was), regardless of remaining
attempts; an event carrying no recognizable signal classifies as neither
no-human nor divergent and so lands on qualified. -/
theorem c6_terminal_outcomes (db : Db) (now vmDraw minDraw : Nat) (cid : String)
    (e : CallEndedEvent) (a : Attempt) (lead : Lead)
    (ha : findAttemptByCallId db cid = some a)
    (hl : findLead db a.leadId = some lead)
    (hn : noHumanDaypart e = false) :
    (retellWebhookDaypart true now vmDraw minDraw "call_ended" cid e db).1 =
      HttpResponse.ok ∧
    findLead (retellWebhookDaypart true now vmDraw minDraw "call_ended" cid e db).2
      a.leadId =
      some { lead with
             status := if divergentOutcome e then "divergent" else "qualified" } ∧
    (findLead (retellWebhookDaypart true now vmDraw minDraw "call_ended" cid e db).2
      a.leadId).map Lead.nextRetryAt = some lead.nextRetryAt ∧
    (noHumanDaypart c6empty = false ∧ divergentOutcome c6empty = false) := by
  cases hd : divergentOutcome e with
  | true =>
    have key : findLead
        (retellWebhookDaypart true now vmDraw minDraw "call_ended" cid e db).2
        a.leadId = some { lead with status := "divergent" } := by
      rw [webhookDaypart_divergent db now vmDraw minDraw cid e a lead ha hl hn hd]
      rw [findLead_updateLead, findLead_stampEnded, hl]
      · rfl
      · intro l
        rfl
    refine ⟨?_, ?_, ?_, by decide⟩
    · rw [webhookDaypart_divergent db now vmDraw minDraw cid e a lead ha hl hn hd]
    · rw [key]
      rfl
    · rw [key]
      rfl
  | false =>
    have key : findLead
        (retellWebhookDaypart true now vmDraw minDraw "call_ended" cid e db).2
        a.leadId = some { lead with status := "qualified" } := by
      rw [webhookDaypart_qualified db now vmDraw minDraw cid e a lead ha hl hn hd]
      rw [findLead_updateLead, findLead_stampEnded, hl]
      · rfl
      · intro l
        rfl
    refine ⟨?_, ?_, ?_, by decide⟩
    · rw [webhookDaypart_qualified db now vmDraw minDraw cid e a lead ha hl hn hd]
    · rw [key]
      rfl
    · rw [key]
      rfl

/-- Claim C6 witness. -/
theorem c6_witness :
    (retellWebhookDaypart true 100 0 0 "call_ended" "c6" c6evt c6db).1 =
      HttpResponse.ok ∧
    findLead (retellWebhookDaypart true 100 0 0 "call_ended" "c6" c6evt c6db).2
      c6att.leadId =
      some { c6lead with
             status := if divergentOutcome c6evt then "divergent" else "qualified" } ∧
    (findLead (retellWebhookDaypart true 100 0 0 "call_ended" "c6" c6evt c6db).2
      c6att.leadId).map Lead.nextRetryAt = some c6lead.nextRetryAt ∧
    (noHumanDaypart c6empty = false ∧ divergentOutcome c6empty = false) :=
  c6_terminal_outcomes c6db 100 0 0 "c6" c6evt c6att c6lead
    (by decide) (by decide) (by decide)

/-- Claim C7 counterexample: replaying a call_ended event for the attempt
with call id "c7", already stamped ended_at = 50, is not a no-op: the second
processing re-stamps ended_at to the new time 200 and re-runs the lead
transition, moving the lead from no_answer to divergent. -/
theorem c7_counterexample :
    (findAttemptByCallId c7db "c7").map Attempt.endedAt = some (some 50) ∧
    (retellWebhookDaypart true 200 0 0 "call_ended" "c7" c7evt c7db).2 ≠ c7db ∧
    ((retellWebhookDaypart true 200 0 0 "call_ended" "c7" c7evt c7db).2.attempts.map
       Attempt.endedAt) = [some 200] ∧
    (findLead (retellWebhookDaypart true 200 0 0 "call_ended" "c7" c7evt c7db).2 4).map
      Lead.status = some "divergent" := by decide

/-- Claim C7 (amended): the webhook is idempotent only per unknown call
handle — an event whose call id resolves to no stored attempt is
acknowledged with no state change — while an event resolving to a stored
attempt is reprocessed unconditionally: ended_at and outcome are re-stamped
and the lead transition re-run even when ended_at was already set. -/
theorem c7_replay_not_idempotent :
    (∀ (db : Db) (now vmDraw minDraw : Nat) (cid : String) (e : CallEndedEvent),
      findAttemptByCallId db cid = none →
      retellWebhookDaypart true now vmDraw minDraw "call_ended" cid e db =
        (HttpResponse.ok, db)) ∧
    (∀ (db : Db) (now vmDraw minDraw : Nat) (cid : String) (e : CallEndedEvent)
      (a : Attempt),
      findAttemptByCallId db cid = some a →
      (retellWebhookDaypart true now vmDraw minDraw "call_ended" cid e db).2.attempts =
        (stampEnded db a.id now (storedOutcomeDaypart e)).attempts) :=
  ⟨fun db now v m cid e ha => webhookDaypart_unknown_handle db now v m "call_ended" cid e ha,
   fun db now v m cid e a ha => webhookDaypart_call_ended_attempts db now v m cid e a ha⟩

/-- Claim C7 witness. -/
theorem c7_witness :
    retellWebhookDaypart true 300 0 0 "call_ended" "zzz" c7evt c7db =
      (HttpResponse.ok, c7db) ∧
    (retellWebhookDaypart true 300 0 0 "call_ended" "c7" c7evt c7db).2.attempts =
      (stampEnded c7db c7att.id 300 (storedOutcomeDaypart c7evt)).attempts :=
  ⟨c7_replay_not_idempotent.1 c7db 300 0 0 "zzz" c7evt (by decide),
   c7_replay_not_idempotent.2 c7db 300 0 0 "c7" c7evt c7att (by decide)⟩

/-- Claim C8 counterexample: a lead sitting in the retry-pending status
no_answer with next_retry_at = 700 receives a divergent-classified
call_ended event; the transition to divergent does not clear next_retry_at,
leaving it non-null while the status is outside every retry-pending state. -/
theorem c8_counterexample :
    (findLead c8db 5).map Lead.status = some "no_answer" ∧
    (findLead c8db 5).map Lead.nextRetryAt = some (some 700) ∧
    (findLead (retellWebhookDaypart true 200 0 0 "call_ended" "c8" c8evt c8db).2 5).map
      Lead.status = some "divergent" ∧
    (findLead (retellWebhookDaypart true 200 0 0 "call_ended" "c8" c8evt c8db).2 5).map
      Lead.nextRetryAt = some (some 700) ∧
    retryPendingStatuses.contains "divergent" = false := by decide

/-- Claim C8 (amended): next_retry_at is cleared on the transitions to
whatsapp_outreach (webhook escalation and sweep escalation) and to calling
(sweep dispatch), and is written non-null together with no_answer; but the
transitions to divergent and qualified leave any existing next_retry_at in
place, and the per-lead failure handler of the sweep sets next_retry_at while
parking the lead as retry_failed, a status outside the retry-pending set —
so the claimed invariant does not hold as stated. -/
theorem c8_next_retry_discipline :
    (∀ (db : Db) (now vmDraw minDraw : Nat) (cid : String) (e : CallEndedEvent)
      (a : Attempt) (lead : Lead),
      findAttemptByCallId db cid = some a →
      findLead db a.leadId = some lead →
      noHumanDaypart e = true →
      3 < maxAttemptNo db a.leadId + 1 →
      (findLead (retellWebhookDaypart true now vmDraw minDraw "call_ended" cid e db).2
        a.leadId).map Lead.nextRetryAt = some none) ∧
    (∀ (db : Db) (now : Nat) (lead : Lead) (dOk : Bool) (cid : String) (l0 : Lead),
      isLeadAlreadyBeingProcessed db lead.id = false →
      maxAttemptsOf lead < maxAttemptNoAux db.attempts lead.id + 1 →
      findLead db lead.id = some l0 →
      (findLead (sweepLead db now lead dOk cid) lead.id).map Lead.nextRetryAt =
        some none) ∧
    (∀ (db : Db) (now : Nat) (lead : Lead) (cid : String) (l0 : Lead),
      isLeadAlreadyBeingProcessed db lead.id = false →
      ¬ maxAttemptsOf lead < maxAttemptNoAux db.attempts lead.id + 1 →
      canRetryNow db now lead.id 2 = true →
      findLead db lead.id = some l0 →
      findLead (sweepLead db now lead true cid) lead.id =
        some { l0 with status := "calling", nextRetryAt := none }) ∧
    (∀ (db : Db) (now vmDraw minDraw : Nat) (cid : String) (e : CallEndedEvent)
      (a : Attempt) (lead : Lead),
      findAttemptByCallId db cid = some a →
      findLead db a.leadId = some lead →
      noHumanDaypart e = false →
      (findLead (retellWebhookDaypart true now vmDraw minDraw "call_ended" cid e db).2
        a.leadId).map Lead.nextRetryAt = some lead.nextRetryAt) ∧
    (∀ (db : Db) (now : Nat) (lead : Lead) (cid : String) (l0 : Lead),
      isLeadAlreadyBeingProcessed db lead.id = false →
      ¬ maxAttemptsOf lead < maxAttemptNoAux db.attempts lead.id + 1 →
      canRetryNow db now lead.id 2 = true →
      findLead db lead.id = some l0 →
      findLead (sweepLead db now lead false cid) lead.id =
        some { l0 with status := "retry_failed", nextRetryAt := some (now + 30) } ∧
      retryPendingStatuses.contains "retry_failed" = false) := by
  refine ⟨?_, ?_, ?_, ?_, ?_⟩
  · intro db now vmDraw minDraw cid e a lead ha hl hn h3
    rw [webhookDaypart_noHuman_escalate db now vmDraw minDraw cid e a lead ha hl hn h3]
    rw [findLead_updateLead, findLead_stampEnded, hl]
    · rfl
    · intro l
      rfl
  · intro db now lead dOk cid l0 h1 h2 hfl
    rw [sweepLead_escalate db now lead dOk cid h1 h2]
    rw [findLead_updateLead, hfl]
    · rfl
    · intro l
      rfl
  · intro db now lead cid l0 h1 h2 h3 hfl
    rw [sweepLead_dispatch db now lead cid h1 h2 h3]
    rw [findLead_updateLead, findLead_insertAttempt, hfl]
    · rfl
    · intro l
      rfl
  · intro db now vmDraw minDraw cid e a lead ha hl hn
    cases hd : divergentOutcome e with
    | true =>
      rw [webhookDaypart_divergent db now vmDraw minDraw cid e a lead ha hl hn hd]
      rw [findLead_updateLead, findLead_stampEnded, hl]
      · rfl
      · intro l
        rfl
    | false =>
      rw [webhookDaypart_qualified db now vmDraw minDraw cid e a lead ha hl hn hd]
      rw [findLead_updateLead, findLead_stampEnded, hl]
      · rfl
      · intro l
        rfl
  · intro db now lead cid l0 h1 h2 h3 hfl
    refine ⟨?_, by decide⟩
    rw [sweepLead_dispatchFail db now lead cid h1 h2 h3]
    rw [findLead_updateLead, hfl]
    · rfl
    · intro l
      rfl

/-- Claim C8 witness. -/
theorem c8_witness :
    (findLead (retellWebhookDaypart true 200 0 0 "call_ended" "c8" c8evt c8db).2
      c8att.leadId).map Lead.nextRetryAt = some c8lead.nextRetryAt ∧
    (findLead (sweepLead c8db 1000 c8lead false "k") c8lead.id =
       some { c8lead with status := "retry_failed", nextRetryAt := some (1000 + 30) } ∧
     retryPendingStatuses.contains "retry_failed" = false) :=
  ⟨c8_next_retry_discipline.2.2.2.1 c8db 200 0 0 "c8" c8evt c8att c8lead
     (by decide) (by decide) (by decide),
   c8_next_retry_discipline.2.2.2.2 c8db 1000 c8lead "k" c8lead
     (by decide) (by decide) (by decide) (by decide)⟩

/-- Claim C9: during a retry sweep pass, a lead with an in-flight attempt
(dispatched, outcome initiated, no ended_at) is left completely untouched; a
lead whose last attempt started less than 2 hours ago gets no new attempt
dispatched; and one sweep iteration preserves the invariant that at most one
attempt per lead is in flight. -/
theorem c9_sweep_guards :
    (∀ (db : Db) (now : Nat) (lead : Lead) (dOk : Bool) (cid : String),
      isLeadAlreadyBeingProcessed db lead.id = true →
      sweepLead db now lead dOk cid = db) ∧
    (∀ (db : Db) (now : Nat) (lead : Lead) (dOk : Bool) (cid : String) (t : Nat),
      topStartedAtDesc db lead.id = some (some t) →
      now < t + 120 →
      (sweepLead db now lead dOk cid).attempts = db.attempts) ∧
    (∀ (db : Db) (now : Nat) (lead : Lead) (dOk : Bool) (cid : String),
      inFlightCount db lead.id ≤ 1 →
      inFlightCount (sweepLead db now lead dOk cid) lead.id ≤ 1) := by
  refine ⟨?_, ?_, ?_⟩
  · intro db now lead dOk cid h
    exact sweepLead_inFlight db now lead dOk cid h
  · intro db now lead dOk cid t ht hlt
    have hcrn : canRetryNow db now lead.id 2 = false := by
      unfold canRetryNow
      rw [ht]
      simp only [decide_eq_false_iff_not]
      omega
    by_cases h1 : isLeadAlreadyBeingProcessed db lead.id = true
    · rw [sweepLead_inFlight db now lead dOk cid h1]
    · have h1f : isLeadAlreadyBeingProcessed db lead.id = false := by
        cases hx : isLeadAlreadyBeingProcessed db lead.id
        · rfl
        · exact absurd hx h1
      by_cases h2 : maxAttemptsOf lead < maxAttemptNoAux db.attempts lead.id + 1
      · rw [sweepLead_escalate db now lead dOk cid h1f h2]
        rfl
      · rw [sweepLead_tooSoon db now lead dOk cid h1f h2 hcrn]
  · intro db now lead dOk cid hc
    by_cases h1 : isLeadAlreadyBeingProcessed db lead.id = true
    · rw [sweepLead_inFlight db now lead dOk cid h1]
      exact hc
    · have h1f : isLeadAlreadyBeingProcessed db lead.id = false := by
        cases hx : isLeadAlreadyBeingProcessed db lead.id
        · rfl
        · exact absurd hx h1
      have h0 : inFlightCount db lead.id = 0 := inFlightCount_eq_zero db lead.id h1f
      by_cases h2 : maxAttemptsOf lead < maxAttemptNoAux db.attempts lead.id + 1
      · rw [sweepLead_escalate db now lead dOk cid h1f h2]
        rw [inFlightCount_updateLead]
        omega
      · by_cases h3 : canRetryNow db now lead.id 2 = true
        · cases dOk with
          | true =>
            rw [sweepLead_dispatch db now lead cid h1f h2 h3]
            rw [inFlightCount_updateLead, inFlightCount_insert, h0]
            simp [isInFlight]
          | false =>
            rw [sweepLead_dispatchFail db now lead cid h1f h2 h3]
            rw [inFlightCount_updateLead]
            omega
        · have h3f : canRetryNow db now lead.id 2 = false := by
            cases hx : canRetryNow db now lead.id 2
            · rfl
            · exact absurd hx h3
          rw [sweepLead_tooSoon db now lead dOk cid h1f h2 h3f]
          omega

/-- Claim C9 witness. -/
theorem c9_witness :
    sweepLead c9db 1000 c9lead true "n" = c9db ∧
    (sweepLead c9db 100 c9lead true "n").attempts = c9db.attempts ∧
    inFlightCount (sweepLead c9db 1000 c9lead true "n") c9lead.id ≤ 1 :=
  ⟨c9_sweep_guards.1 c9db 1000 c9lead true "n" (by decide),
   c9_sweep_guards.2.1 c9db 100 c9lead true "n" 10 (by decide) (by decide),
   c9_sweep_guards.2.2 c9db 1000 c9lead true "n" (by decide)⟩

/-- Claim C10 counterexample: in the deployed webhook variants the inline
signature guard logs and returns without writing any response at all — a
hung request, not a generic 401-equivalent rejection (no processing and no
state change still occur). -/
theorem c10_counterexample :
    retellWebhookDaypart false 0 0 0 "call_ended" "x" c10evt c10db =
      (HttpResponse.noResponse, c10db) ∧
    retellWebhookVR false 0 0 "call_ended" "x" c10evt c10db =
      (HttpResponse.noResponse, c10db) ∧
    HttpResponse.noResponse ≠ HttpResponse.unauthorized := by decide

/-- Claim C10 (amended): a request whose signature fails verification causes
no further processing and no state change in every variant; the verifyRetell
middleware path rejects it with a 401, while the inline-guard webhook
variants send no response at all. -/
theorem c10_signature_failure :
    (∀ (handler : Db → HttpResponse × Db) (db : Db),
      verifyRetellGate false handler db = (HttpResponse.unauthorized, db)) ∧
    (∀ (now vmDraw minDraw : Nat) (ty cid : String) (e : CallEndedEvent) (db : Db),
      retellWebhookDaypart false now vmDraw minDraw ty cid e db =
        (HttpResponse.noResponse, db)) ∧
    (∀ (now vmDraw : Nat) (ty cid : String) (e : CallEndedEvent) (db : Db),
      retellWebhookVR false now vmDraw ty cid e db = (HttpResponse.noResponse, db)) :=
  ⟨fun _ _ => rfl, fun _ _ _ _ _ _ _ => rfl, fun _ _ _ _ _ _ => rfl⟩
